import Mathlib

/-!
Shallow embedding of the yawf workflow-definition core
(src/yawf/base.py `WorkflowBase`, src/yawf/resources/base.py
`WorkflowResource`, and the container-inheritance helper
`merge_container`).

Python dicts are embedded as association lists (`aget`/`aset`), Python
sets of states as `List Nat` with insert-if-absent, and Python sets of
permission-checker objects as lists of (identity, predicate) pairs with
identity-based union, mirroring CPython's identity-based set membership
for function objects.  Raised exceptions are embedded as an error type:
query functions return `Except WfError _`, and fallible registration
functions return `Option WfError × Workflow`, the second component being
the container state after the call (mutations in the source happen in
place, so the post-raise state matters).
-/

namespace Yawf

/-- Association-list lookup, embedding Python `dict.get`. -/
def aget {K V : Type} [DecidableEq K] : List (K × V) → K → Option V
  | [], _ => none
  | (k', v) :: t, k => if k = k' then some v else aget t k

/-- Association-list store, embedding Python `dict.__setitem__`:
replaces the binding if the key is present, appends otherwise. -/
def aset {K V : Type} [DecidableEq K] : List (K × V) → K → V → List (K × V)
  | [], k, v => [(k, v)]
  | (k', v') :: t, k, v =>
      if k = k' then (k, v) :: t else (k', v') :: aset t k v

/-- Key list of a dict, embedding Python `dict.keys()`. -/
def akeys {K V : Type} (l : List (K × V)) : List K := l.map Prod.fst

/-- Insert-if-absent for a set of opaque labels (Python `set.add`). -/
def nadd (s : List Nat) (x : Nat) : List Nat :=
  if x ∈ s then s else s ++ [x]

/-- Union of two label sets (Python `set.update`). -/
def nunion (s : List Nat) (xs : List Nat) : List Nat := xs.foldl nadd s

-- Opaque labels of the Python program.
abbrev State := Nat
abbrev MsgId := Nat
abbrev ResId := Nat
abbrev Obj := Nat
abbrev Sender := Nat

/-- A permission checker object: CPython identity (the `Nat`) paired with
its behaviour as a predicate over (object, sender). -/
abbrev Checker := Nat × (Obj → Sender → Bool)

/-- Handlers are opaque callables; only their identity matters here. -/
abbrev Handler := Nat

/-- Actions are opaque callables; only their identity matters here. -/
abbrev Action := Nat

/-- Identity-based insert into a checker set (Python `set.add` with
identity-based membership of function objects). -/
def cadd (s : List Checker) (c : Checker) : List Checker :=
  if s.any (fun c' => c'.1 = c.1) then s else s ++ [c]

/-- Identity-based union into a checker set (Python `set.update`). -/
def cunion (s : List Checker) (cs : List Checker) : List Checker :=
  cs.foldl cadd s

/-- The exceptions the core can raise
(yawf/exceptions, referenced from src/yawf/base.py). -/
inductive WfError where
  | illegalState (state : State)
  | unhandledMessage (message_id : MsgId) (available : List MsgId)
  | messageSpecNotRegistered (message_id : MsgId)
  | valueError (msg : String)
  | resourcePermissionDenied (resource_id : ResId) (obj : Obj) (sender : Sender)
  deriving DecidableEq

/-- Per-message-id metadata (`message_spec.id` is all the core reads). -/
structure MessageSpec where
  id : MsgId
  verb : Option Nat := none
  deriving DecidableEq

/-- Modelled from the spec: `joinAnd(checkers)` — true iff all checkers
evaluate true for (object, sender).  The `AndChecker` class lives in
yawf/permissions.py, which is not part of the sources here; the spec
describes it as the AND composition used for resources. -/
def AndChecker (cs : List Checker) : Obj → Sender → Bool :=
  fun obj sender => cs.all (fun p => p.2 obj sender)

/-- `WorkflowResource` (src/yawf/resources/base.py): a permission-gated
accessor.  The accessor contract is `(request, object, sender) -> value`. -/
structure WorkflowResource where
  handler : Nat → Obj → Sender → Nat
  id : ResId
  checkers : List Checker
  description : Option Nat := none

/-- `WorkflowResource.__call__`: delegate to the wrapped accessor when the
AND-combined permission checker accepts (object, sender), otherwise raise
`ResourcePermissionDeniedError(id, obj, sender)`. -/
def WorkflowResource.call (r : WorkflowResource) (request : Nat) (obj : Obj)
    (sender : Sender) : Except WfError Nat :=
  if AndChecker r.checkers obj sender then
    Except.ok (r.handler request obj sender)
  else
    Except.error (WfError.resourcePermissionDenied r.id obj sender)

/-- The containers of a `WorkflowBase` definition, plus the two declared
class attributes (`valid_states`, `extra_valid_states`) the registration
code reads.  Field names keep the source's names. -/
structure Workflow where
  handlers : List (State × List (MsgId × (List Checker × Handler)))
  resources : List (ResId × WorkflowResource)
  resources_by_state : List (State × List (ResId × WorkflowResource))
  resource_checkers_by_state : List (State × List Checker)
  actions : List ((State × State × MsgId) × Action)
  actions_any_destination : List ((State × MsgId) × Action)
  actions_any_startpoint : List ((State × MsgId) × Action)
  actions_for_possible : List ((Option State × MsgId) × List Action)
  valid_states_set : List State
  message_specs : List (MsgId × MessageSpec)
  message_checkers_by_state : List (State × List Checker)
  valid_states : List State
  extra_valid_states : List State

/-- The default permission checker `permissions.allow_to_all`
(modelled from the spec: allows every sender; identity 0). -/
def allow_to_all : Checker := (0, fun _ _ => true)

/-- `WorkflowBase.init_containers`: fresh empty containers; the
valid-state set is `set(valid_states)` updated with `extra_valid_states`. -/
def init_containers (valid_states extra_valid_states : List State) : Workflow :=
  { handlers := []
    resources := []
    resources_by_state := []
    resource_checkers_by_state := []
    actions := []
    actions_any_destination := []
    actions_any_startpoint := []
    actions_for_possible := []
    valid_states_set := nunion (nunion [] valid_states) extra_valid_states
    message_specs := []
    message_checkers_by_state := []
    valid_states := valid_states
    extra_valid_states := extra_valid_states }

/-- `WorkflowBase._join_checkers`: join permission checkers with OR. -/
def join_checkers (permission_checkers : List Checker) : Obj → Sender → Bool :=
  fun obj sender => permission_checkers.any (fun p => p.2 obj sender)

/-- `WorkflowBase.is_valid_state`. -/
def is_valid_state (w : Workflow) (state : State) : Bool :=
  state ∈ w.valid_states_set

/-- `WorkflowBase.is_valid_message`. -/
def is_valid_message (w : Workflow) (state : State) (message_id : MsgId) :
    Except WfError Bool :=
  match aget w.handlers state with
  | none =>
      if ¬ is_valid_state w state then
        Except.error (WfError.illegalState state)
      else
        Except.ok false
  | some lookup_result => Except.ok ((aget lookup_result message_id).isSome)

/-- `WorkflowBase.get_message_checkers_by_state`. -/
def get_message_checkers_by_state (w : Workflow) (state : State) : List Checker :=
  (aget w.message_checkers_by_state state).getD []

/-- `WorkflowBase.get_resource_checkers_by_state`. -/
def get_resource_checkers_by_state (w : Workflow) (state : State) : List Checker :=
  (aget w.resource_checkers_by_state state).getD []

/-- `WorkflowBase.get_checkers_by_state`: union of the message-checker and
resource-checker indices for the state. -/
def get_checkers_by_state (w : Workflow) (state : State) : List Checker :=
  cunion (get_message_checkers_by_state w state)
         (get_resource_checkers_by_state w state)

/-- `WorkflowBase.get_available_messages`: pairs (checkers, message id). -/
def get_available_messages (w : Workflow) (state : State) :
    Except WfError (List (List Checker × MsgId)) :=
  match aget w.handlers state with
  | none =>
      if ¬ is_valid_state w state then
        Except.error (WfError.illegalState state)
      else
        Except.ok []
  | some lookup_result =>
      Except.ok (lookup_result.map (fun p => (p.2.1, p.1)))

/-- `WorkflowBase.get_available_resources`. -/
def get_available_resources (w : Workflow) (state : State) :
    Except WfError (List WorkflowResource) :=
  match aget w.resources_by_state state with
  | none =>
      if ¬ is_valid_state w state then
        Except.error (WfError.illegalState state)
      else
        Except.ok []
  | some lookup_result => Except.ok (lookup_result.map Prod.snd)

/-- `WorkflowBase.get_resource`: the resource, or `none` when the state is
valid but has no resource with that id. -/
def get_resource (w : Workflow) (state : State) (resource_id : ResId) :
    Except WfError (Option WorkflowResource) :=
  match aget w.resources_by_state state with
  | none =>
      if ¬ is_valid_state w state then
        Except.error (WfError.illegalState state)
      else
        Except.ok none
  | some lookup_result => Except.ok (aget lookup_result resource_id)

/-- `WorkflowBase.get_handler`: the OR-joined permission checker and the
handler; `IllegalStateError` when the state has no handler table,
`UnhandledMessageError(message_id, table keys)` when the table lacks the
message id. -/
def get_handler (w : Workflow) (state : State) (message_id : MsgId) :
    Except WfError ((Obj → Sender → Bool) × Handler) :=
  match aget w.handlers state with
  | none => Except.error (WfError.illegalState state)
  | some lookup_result =>
      match aget lookup_result message_id with
      | none =>
          Except.error (WfError.unhandledMessage message_id (akeys lookup_result))
      | some complex_handler =>
          Except.ok (join_checkers complex_handler.1, complex_handler.2)

/-- `WorkflowBase.get_action`: tiered lookup — exact, any-startpoint,
any-destination; `none` when no tier matches.  (The source's
`callable(...)` tests distinguish a stored callable from the `None` that
`dict.get` yields on a miss.) -/
def get_action (w : Workflow) (from_state to_state : State) (message_id : MsgId) :
    Option Action :=
  match aget w.actions (from_state, to_state, message_id) with
  | some first_try => some first_try
  | none =>
      match aget w.actions_any_startpoint (to_state, message_id) with
      | some second_try => some second_try
      | none => aget w.actions_any_destination (from_state, message_id)

/-- `WorkflowBase.get_possible_actions`: the (from, message) list if
truthy, else the (None, message) list if truthy, else `[]`. -/
def get_possible_actions (w : Workflow) (from_state : State) (message_id : MsgId) :
    List Action :=
  let first_try := (aget w.actions_for_possible (some from_state, message_id)).getD []
  if first_try.isEmpty then
    (aget w.actions_for_possible (none, message_id)).getD []
  else
    first_try

/-- `WorkflowBase.get_message_spec`. -/
def get_message_spec (w : Workflow) (message_id : MsgId) :
    Except WfError MessageSpec :=
  match aget w.message_specs message_id with
  | none => Except.error (WfError.messageSpecNotRegistered message_id)
  | some message_spec => Except.ok message_spec

/-- One loop iteration of `register_handler`'s registrator: store
(checkers, handler) at (state, message id) and union the checkers into the
per-state message-checker index. -/
def register_handler_step (permission_checkers : List Checker)
    (message_id : MsgId) (handler : Handler) (w : Workflow) (state : State) :
    Workflow :=
  let handlers_tbl := (aget w.handlers state).getD []
  let handlers' := aset w.handlers state
      (aset handlers_tbl message_id (permission_checkers, handler))
  let w := { w with handlers := handlers' }
  let checkers_set := (aget w.message_checkers_by_state state).getD []
  let index' := aset w.message_checkers_by_state state
      (cunion checkers_set permission_checkers)
  { w with message_checkers_by_state := index' }

/-- `WorkflowBase.register_handler` followed by its registrator applied to
`handler`.  `message_id = none` defaults to the handler's `__name__`
(`handler_name`); `states_from = none` defaults to the class attribute
`valid_states`; `permission_checker = none` defaults to the singleton
default checker. -/
def register_handler (w : Workflow) (message_id : Option MsgId)
    (states_from : Option (List State)) (permission_checker : Option (List Checker))
    (handler_name : MsgId) (handler : Handler) : Workflow :=
  let permission_checkers := permission_checker.getD [allow_to_all]
  let states_from := states_from.getD w.valid_states
  let message_id := message_id.getD handler_name
  states_from.foldl (register_handler_step permission_checkers message_id handler) w

/-- One loop iteration of `register_resource`'s registrator: index the
resource and its checkers for one state. -/
def register_resource_step (resource : WorkflowResource)
    (permission_checkers : List Checker) (w : Workflow) (state : State) :
    Workflow :=
  let resources_tbl := (aget w.resources_by_state state).getD []
  let by_state' := aset w.resources_by_state state
      (aset resources_tbl resource.id resource)
  let w := { w with resources_by_state := by_state' }
  let checkers_set := (aget w.resource_checkers_by_state state).getD []
  let index' := aset w.resource_checkers_by_state state
      (cunion checkers_set permission_checkers)
  { w with resource_checkers_by_state := index' }

/-- `WorkflowBase.register_resource` followed by its registrator applied
to `handler`.  `available_in_states = none` defaults to the computed
valid-state set; an empty list is a `ValueError`, as is a duplicate
resource id.  The second component is the container state after the call. -/
def register_resource (w : Workflow) (resource_id : ResId)
    (description : Option Nat) (available_in_states : Option (List State))
    (permission_checker : Option (List Checker))
    (handler : Nat → Obj → Sender → Nat) : Option WfError × Workflow :=
  let permission_checkers := permission_checker.getD [allow_to_all]
  let available_in_states := available_in_states.getD w.valid_states_set
  if available_in_states.isEmpty then
    (some (WfError.valueError "available_in_states cannot be empty"), w)
  else if (aget w.resources resource_id).isSome then
    (some (WfError.valueError "Resource with that name already registered"), w)
  else
    let resource : WorkflowResource :=
      { handler := handler, id := resource_id,
        checkers := permission_checkers, description := description }
    let w := { w with resources := aset w.resources resource_id resource }
    (none, available_in_states.foldl
        (register_resource_step resource permission_checkers) w)

/-- `WorkflowBase.register_message`: insert by `spec.id`; a duplicate id
is a `ValueError`.  The second component is the container state after the
call. -/
def register_message (w : Workflow) (message_spec : MessageSpec) :
    Option WfError × Workflow :=
  if (aget w.message_specs message_spec.id).isSome then
    (some (WfError.valueError "Message spec already registered"), w)
  else
    let specs' := aset w.message_specs message_spec.id message_spec
    (none, { w with message_specs := specs' })

/-- `WorkflowBase.register_action` followed by its registrator applied to
`action`.  Requires at least one of `states_from`/`states_to`; the three
registration shapes fill the any-destination, any-startpoint or exact tier
and append into the possible-actions index.  The second component is the
container state after the call. -/
def register_action (w : Workflow) (message_id : Option MsgId)
    (states_from states_to : Option (List State))
    (action_name : MsgId) (action : Action) : Option WfError × Workflow :=
  match states_from, states_to with
  | none, none =>
      (some (WfError.valueError "Must specify at least one of states_from or states_to."),
       w)
  | some states_from, none =>
      let message_id := message_id.getD action_name
      (none, states_from.foldl (fun w state_from =>
        let key := (state_from, message_id)
        let any_dest' := aset w.actions_any_destination key action
        let w := { w with actions_any_destination := any_dest' }
        let tmp := (aget w.actions_for_possible (some state_from, message_id)).getD []
        let possible' := aset w.actions_for_possible (some state_from, message_id)
            (tmp ++ [action])
        { w with actions_for_possible := possible' }) w)
  | none, some states_to =>
      let message_id := message_id.getD action_name
      let w := states_to.foldl (fun w state_to =>
        let any_start' := aset w.actions_any_startpoint (state_to, message_id) action
        { w with actions_any_startpoint := any_start' }) w
      let tmp := (aget w.actions_for_possible (none, message_id)).getD []
      let possible' := aset w.actions_for_possible (none, message_id) (tmp ++ [action])
      (none, { w with actions_for_possible := possible' })
  | some states_from, some states_to =>
      let message_id := message_id.getD action_name
      (none, states_to.foldl (fun w state_to =>
        states_from.foldl (fun w state_from =>
          let actions' := aset w.actions (state_from, state_to, message_id) action
          let w := { w with actions := actions' }
          let tmp := (aget w.actions_for_possible (some state_from, message_id)).getD []
          let possible' := aset w.actions_for_possible (some state_from, message_id)
              (tmp ++ [action])
          { w with actions_for_possible := possible' }) w) w)

/-!
Container inheritance (`WorkflowBase.__init__` with
`inherit_behaviour=True`, `init_inherited_containers`, `merge_container`).

`merge_container` receives a container name, the container fabric and the
parent's container object.  When the fabric is a dict subclass it builds a
fresh empty dict, and only for the `_message_specs` container wraps it
into a `MergeDict` over (fresh child dict, parent dict) whose
`__setitem__` writes into the child dict; for every other container —
dict-fabric or not — it returns the parent's container object itself.
`MergeDict` (django.utils.datastructures) looks its dicts up in order:
child layer first, parent second.  After the loop,
`init_inherited_containers` rebinds `_valid_states` — the sole non-dict
container — to a fresh set built from the parent's valid states and the
instance's extra valid states, so only the mapping containers keep what
`merge_container` returned.

The model keeps one container of the derived definition together with the
parent's container, so that aliasing is explicit: a `sharedParent` child
container is the parent's dict, and writing through it writes the
parent's dict. -/

/-- The derived definition's view of one container. -/
inductive ChildContainer where
  | layered (layer : List (Nat × Nat))
  | sharedParent
  deriving DecidableEq

/-- One container of a derived definition paired with the parent's
container it was built from. -/
structure InheritWorld where
  parent : List (Nat × Nat)
  child : ChildContainer
  deriving DecidableEq

/-- The `_containers` class attribute: container name and whether its
fabric is a dict subclass (`_valid_states` is a `set`). -/
def workflow_containers : List (String × Bool) :=
  [("_handlers", true),
   ("_resources", true),
   ("_resources_by_state", true),
   ("_resource_checkers_by_state", true),
   ("_actions", true),
   ("_actions_any_destination", true),
   ("_actions_any_startpoint", true),
   ("_actions_for_possible", true),
   ("_valid_states", false),
   ("_message_specs", true),
   ("_message_checkers_by_state", true)]

/-- `merge_container(container_name, container_fabric, parent_container)`:
a `MergeDict` view (fresh child layer over the parent) only for
`_message_specs`; the parent's own container for everything else. -/
def merge_container (container_name : String) (fabric_is_dict : Bool) :
    ChildContainer :=
  if fabric_is_dict then
    if container_name = "_message_specs" then ChildContainer.layered []
    else ChildContainer.sharedParent
  else ChildContainer.sharedParent

/-- One loop step of `init_inherited_containers` for a dict-fabric
container: attach the result of `merge_container` for one mapping
container of the parent.  The sole non-dict container, `_valid_states`,
does not stay with what `merge_container` returns: after the loop the
method rebinds it to a fresh copy (see `init_inherited_valid_states`). -/
def init_inherited_container (container_name : String)
    (parent : List (Nat × Nat)) : InheritWorld :=
  { parent := parent, child := merge_container container_name true }

/-- The `_valid_states` container of a derived definition: after the
container loop, `init_inherited_containers` rebinds the instance
attribute to `set(cls._valid_states)` — a fresh set copied from the
parent's — updated with the instance's own `extra_valid_states`, so this
one container is not shared with the parent. -/
def init_inherited_valid_states (parent_valid_states extra_valid_states : List State) :
    List State :=
  nunion (nunion [] parent_valid_states) extra_valid_states

/-- A write (registration) through the derived definition's container:
into the child layer of a `MergeDict` view, or straight into the parent's
dict when the container is shared. -/
def child_set (iw : InheritWorld) (k v : Nat) : InheritWorld :=
  match iw.child with
  | ChildContainer.layered layer =>
      { iw with child := ChildContainer.layered (aset layer k v) }
  | ChildContainer.sharedParent =>
      { iw with parent := aset iw.parent k v }

/-- A read through the derived definition's container: child layer first,
parent layer on a miss (`MergeDict` lookup order), or the parent's dict
directly when the container is shared. -/
def child_get (iw : InheritWorld) (k : Nat) : Option Nat :=
  match iw.child with
  | ChildContainer.layered layer =>
      match aget layer k with
      | some v => some v
      | none => aget iw.parent k
  | ChildContainer.sharedParent => aget iw.parent k

/-- A write through the parent definition's container. -/
def parent_set (iw : InheritWorld) (k v : Nat) : InheritWorld :=
  { iw with parent := aset iw.parent k v }

/-- A read through the parent definition's container. -/
def parent_get (iw : InheritWorld) (k : Nat) : Option Nat :=
  aget iw.parent k

/-! ### Concrete fixtures used by witnesses and counterexamples -/

/-- A checker that allows everybody (fresh identity 1). -/
def checkerTrue : Checker := (1, fun _ _ => true)

/-- A checker that allows a sender exactly when it equals the object. -/
def checkerEq : Checker := (2, fun obj sender => decide (obj = sender))

/-- A checker that denies everybody. -/
def checkerFalse : Checker := (3, fun _ _ => false)

/-- A base definition with declared valid states `[0]` and no extras. -/
def w0 : Workflow := init_containers [0] []

/-- The spec's action-tiering scenario over `w0` (A = 0, B = 1, msg = 5):
an exact registration (0,1,5) ↦ 11, an any-startpoint registration
(·,1,5) ↦ 12, an any-destination registration (0,·,5) ↦ 13. -/
def wc3 : Workflow :=
  let w1 := (register_action w0 (some 5) (some [0]) (some [1]) 5 11).2
  let w2 := (register_action w1 (some 5) none (some [1]) 5 12).2
  (register_action w2 (some 5) (some [0]) none 5 13).2

/-- Handler 9 registered for message 5 at state 0 with two checkers. -/
def wc4 : Workflow :=
  register_handler w0 (some 5) (some [0]) (some [checkerEq, checkerFalse]) 7 9

/-- A base definition with declared valid states `[0]` and extra valid
state 1, then a handler registration with `states_from` omitted. -/
def wc6base : Workflow := init_containers [0] [1]

/-- Handler 42 for message 7 registered on `wc6base` with `states_from`
omitted. -/
def wc6 : Workflow := register_handler wc6base (some 7) none none 3 42

/-- Only a wildcard possible-actions registration for message 5. -/
def wc7 : Workflow := (register_action w0 (some 5) none (some [1]) 5 12).2

/-- A concrete resource accessor. -/
def accR : Nat → Obj → Sender → Nat := fun request _ _ => request

/-- The resource object `register_resource` builds on `wc9`'s
registration below. -/
def resStored : WorkflowResource :=
  { handler := accR, id := 4, checkers := [checkerTrue], description := none }

/-- A resource gated by two checkers, one of which is not allow-all. -/
def resR : WorkflowResource :=
  { handler := accR, id := 4, checkers := [checkerTrue, checkerEq],
    description := none }

/-- `w0` with resource 4 registered for state 0. -/
def wc9 : Workflow :=
  (register_resource w0 4 none (some [0]) (some [checkerTrue]) accR).2

/-- `w0` with message spec 6 registered. -/
def wc9m : Workflow := (register_message w0 { id := 6 }).2

/-- `wc9` with message spec 6 also registered: a definition on which both
resource id 4 and message-spec id 6 are taken. -/
def wc9both : Workflow := (register_message wc9 { id := 6 }).2

/-! ### Association-list lemmas -/

theorem aget_aset_self {K V : Type} [DecidableEq K] (l : List (K × V)) (k : K) (v : V) :
    aget (aset l k v) k = some v := by
  induction l with
  | nil => simp [aget, aset]
  | cons hd tl ih =>
      obtain ⟨k', v'⟩ := hd
      by_cases h : k = k' <;> simp [aget, aset, h, ih]

theorem aget_aset_ne {K V : Type} [DecidableEq K] (l : List (K × V)) (k q : K) (v : V)
    (h : k ≠ q) : aget (aset l q v) k = aget l k := by
  induction l with
  | nil => simp [aget, aset, h]
  | cons hd tl ih =>
      obtain ⟨k', v'⟩ := hd
      by_cases hq : q = k'
      · subst hq
        simp [aget, aset, h]
      · by_cases hk : k = k' <;> simp [aget, aset, hq, hk, ih]

theorem aget_isSome_iff_mem_akeys {K V : Type} [DecidableEq K]
    (l : List (K × V)) (k : K) : (aget l k).isSome = true ↔ k ∈ akeys l := by
  induction l with
  | nil => simp [aget, akeys]
  | cons hd tl ih =>
      obtain ⟨k', v'⟩ := hd
      by_cases h : k = k' <;> simp [aget, akeys, h, ih]

theorem mem_nadd (s : List Nat) (y x : Nat) : x ∈ nadd s y ↔ x ∈ s ∨ x = y := by
  by_cases h : y ∈ s
  · simp only [nadd, if_pos h]
    constructor
    · exact Or.inl
    · rintro (hx | rfl)
      · exact hx
      · exact h
  · simp [nadd, if_neg h]

theorem mem_nunion (xs s : List Nat) (x : Nat) :
    x ∈ nunion s xs ↔ x ∈ s ∨ x ∈ xs := by
  induction xs generalizing s with
  | nil => simp [nunion]
  | cons a t ih =>
      have : nunion s (a :: t) = nunion (nadd s a) t := rfl
      rw [this, ih, mem_nadd]
      constructor
      · rintro ((hx | rfl) | hx)
        · exact Or.inl hx
        · exact Or.inr (List.mem_cons_self _ _)
        · exact Or.inr (List.mem_cons_of_mem _ hx)
      · rintro (hx | hx)
        · exact Or.inl (Or.inl hx)
        · rcases List.mem_cons.mp hx with rfl | hx
          · exact Or.inl (Or.inr rfl)
          · exact Or.inr hx

/-! ### The handler-registration loop -/

theorem register_handler_step_handlers (pcs : List Checker) (mid : MsgId)
    (h : Handler) (w : Workflow) (state : State) :
    (register_handler_step pcs mid h w state).handlers
      = aset w.handlers state
          (aset ((aget w.handlers state).getD []) mid (pcs, h)) := rfl

theorem register_handler_foldl_pres (pcs : List Checker) (mid : MsgId)
    (h : Handler) (states : List State) (w : Workflow) (s : State)
    (tbl : List (MsgId × (List Checker × Handler)))
    (hs : s ∉ states) (hw : aget w.handlers s = some tbl) :
    aget ((states.foldl (register_handler_step pcs mid h) w).handlers) s
      = some tbl := by
  induction states generalizing w with
  | nil => simpa using hw
  | cons a t ih =>
      simp only [List.foldl_cons]
      have hsa : s ≠ a := by
        intro e
        exact hs (by simp [e])
      have hst : s ∉ t := fun m => hs (List.mem_cons_of_mem _ m)
      apply ih _ hst
      rw [register_handler_step_handlers, aget_aset_ne _ _ _ _ hsa, hw]

theorem register_handler_foldl_get (pcs : List Checker) (mid : MsgId)
    (h : Handler) (states : List State) (w : Workflow) (s : State)
    (hs : s ∈ states) :
    ∃ tbl, aget ((states.foldl (register_handler_step pcs mid h) w).handlers) s
        = some tbl
      ∧ aget tbl mid = some (pcs, h) := by
  induction states generalizing w with
  | nil => cases hs
  | cons a t ih =>
      simp only [List.foldl_cons]
      by_cases hmem : s ∈ t
      · exact ih _ hmem
      · have hsa : s = a := by
          rcases List.mem_cons.mp hs with h1 | h2
          · exact h1
          · exact absurd h2 hmem
        subst hsa
        refine ⟨aset ((aget w.handlers s).getD []) mid (pcs, h), ?_,
          aget_aset_self _ _ _⟩
        apply register_handler_foldl_pres pcs mid h t _ s _ hmem
        rw [register_handler_step_handlers]
        exact aget_aset_self _ _ _

/-! ### Claim C3 -/

/-- Claim C3: for every fromState, toState and messageId, `get_action`
performs a tiered lookup in strict precedence order — exact
(fromState,toState,messageId), then any-startpoint (toState,messageId),
then any-destination (fromState,messageId) — returning the first
registered action found, and `none` (not an error) when no tier matches. -/
theorem get_action_tiered (w : Workflow) (f t : State) (m : MsgId) :
    (∀ a, aget w.actions (f, t, m) = some a → get_action w f t m = some a)
  ∧ (aget w.actions (f, t, m) = none →
      ∀ a, aget w.actions_any_startpoint (t, m) = some a →
        get_action w f t m = some a)
  ∧ (aget w.actions (f, t, m) = none →
      aget w.actions_any_startpoint (t, m) = none →
        get_action w f t m = aget w.actions_any_destination (f, m)) := by
  refine ⟨?_, ?_, ?_⟩
  · intro a h
    simp [get_action, h]
  · intro h a h2
    simp [get_action, h, h2]
  · intro h h2
    simp [get_action, h, h2]

/-- Witness for C3, at the spec's tiering scenario `wc3`: the exact-tier
action wins on (0,1,5); on (0,3,5) only the any-destination entry
matches. -/
theorem get_action_tiered_witness :
    get_action wc3 0 1 5 = some 11 ∧ get_action wc3 0 3 5 = some 13 :=
  ⟨(get_action_tiered wc3 0 1 5).1 11 (by decide),
   ((get_action_tiered wc3 0 3 5).2.2 (by decide) (by decide)).trans (by decide)⟩

/-! ### Claim C5 -/

/-- Claim C5: `get_handler` raises `IllegalState` when the state has no
handler table at all, and raises `UnhandledMessage` — carrying the
offending message id and the keys of the state's handler table, which are
exactly the message ids having handlers there — when the table exists but
lacks the message id. -/
theorem get_handler_errors (w : Workflow) (s : State) (m : MsgId) :
    (aget w.handlers s = none →
        get_handler w s m = Except.error (WfError.illegalState s))
  ∧ (∀ tbl, aget w.handlers s = some tbl → aget tbl m = none →
        get_handler w s m
            = Except.error (WfError.unhandledMessage m (akeys tbl))
          ∧ ∀ m', m' ∈ akeys tbl ↔ (aget tbl m').isSome = true) := by
  constructor
  · intro h
    simp [get_handler, h]
  · intro tbl h1 h2
    refine ⟨by simp [get_handler, h1, h2], ?_⟩
    intro m'
    exact (aget_isSome_iff_mem_akeys tbl m').symm

/-- Witness for C5 on `wc4`: state 1 has no handler table; state 0 has
one, but no entry for message 7 (the table's keys are `[5]`). -/
theorem get_handler_errors_witness :
    get_handler wc4 1 7 = Except.error (WfError.illegalState 1)
  ∧ get_handler wc4 0 7 = Except.error (WfError.unhandledMessage 7 [5]) :=
  ⟨(get_handler_errors wc4 1 7).1 rfl,
   ((get_handler_errors wc4 0 7).2 [(5, ([checkerEq, checkerFalse], 9))]
      rfl rfl).1⟩

/-! ### Claim C7 -/

/-- Claim C7: `get_possible_actions` returns the list registered under
(fromState, messageId) when it exists and is non-empty, otherwise the
list under the wildcard key (None, messageId) when it exists and is
non-empty, otherwise the empty list; it never raises (its result type has
no error case). -/
theorem get_possible_actions_fallback (w : Workflow) (f : State) (m : MsgId) :
    (∀ l, aget w.actions_for_possible (some f, m) = some l → l ≠ [] →
        get_possible_actions w f m = l)
  ∧ ((aget w.actions_for_possible (some f, m)).getD [] = [] →
      ∀ l, aget w.actions_for_possible (none, m) = some l → l ≠ [] →
        get_possible_actions w f m = l)
  ∧ ((aget w.actions_for_possible (some f, m)).getD [] = [] →
      (aget w.actions_for_possible (none, m)).getD [] = [] →
        get_possible_actions w f m = []) := by
  refine ⟨?_, ?_, ?_⟩
  · intro l h hne
    have hfalse : l.isEmpty = false := by
      cases l with
      | nil => exact absurd rfl hne
      | cons a t => rfl
    simp [get_possible_actions, h, hfalse]
  · intro h1 l h2 hne
    simp [get_possible_actions, h1, h2]
  · intro h1 h2
    simp [get_possible_actions, h1, h2]

/-- Witness for C7 on `wc7`, where only the wildcard list exists for
message 5: the wildcard list is returned, and an unregistered message
yields the empty list. -/
theorem get_possible_actions_fallback_witness :
    get_possible_actions wc7 0 5 = [12] ∧ get_possible_actions wc7 0 6 = [] :=
  ⟨(get_possible_actions_fallback wc7 0 5).2.1 rfl [12] rfl (by decide),
   (get_possible_actions_fallback wc7 0 6).2.2 rfl rfl⟩

/-! ### Claim C8 -/

/-- Claim C8: a `WorkflowResource` combines its checkers with AND:
invoking it on (request, object, sender) delegates to the wrapped
accessor when every checker accepts (object, sender) — the AND-combined
predicate — and raises `ResourcePermissionDenied` (carrying the resource
id, object and sender) when that predicate rejects; distinct from a
resource being absent for a valid state, where `get_resource` returns
`none` without error. -/
theorem workflow_resource_call (r : WorkflowResource) (request : Nat)
    (o : Obj) (snd : Sender) (w : Workflow) (st : State) (rid : ResId)
    (tbl : List (ResId × WorkflowResource)) :
    (AndChecker r.checkers o snd = true →
        r.call request o snd = Except.ok (r.handler request o snd))
  ∧ (AndChecker r.checkers o snd = false →
        r.call request o snd
          = Except.error (WfError.resourcePermissionDenied r.id o snd))
  ∧ (AndChecker r.checkers o snd = true ↔ ∀ c ∈ r.checkers, c.2 o snd = true)
  ∧ (aget w.resources_by_state st = some tbl → aget tbl rid = none →
        get_resource w st rid = Except.ok none) := by
  refine ⟨?_, ?_, ?_, ?_⟩
  · intro h
    simp [WorkflowResource.call, h]
  · intro h
    simp [WorkflowResource.call, h]
  · simp [AndChecker, List.all_eq_true]
  · intro h1 h2
    simp [get_resource, h1, h2]

/-- Witness for C8: `resR` (checkers allow-all AND object-equals-sender)
delegates on (10, 2, 2), denies on (10, 1, 2); on `wc9` state 0 is valid
and has a resource table, but id 8 is absent, so `get_resource` yields
`none` without error. -/
theorem workflow_resource_call_witness :
    resR.call 10 2 2 = Except.ok 10
  ∧ resR.call 10 1 2 = Except.error (WfError.resourcePermissionDenied 4 1 2)
  ∧ get_resource wc9 0 8 = Except.ok none :=
  ⟨(workflow_resource_call resR 10 2 2 wc9 0 8 [(4, resStored)]).1 rfl,
   (workflow_resource_call resR 10 1 2 wc9 0 8 [(4, resStored)]).2.1 rfl,
   (workflow_resource_call resR 10 1 2 wc9 0 8 [(4, resStored)]).2.2.2 rfl rfl⟩

/-! ### Claim C9 -/

/-- Claim C9: registering a resource whose resource id is already present
in the global resource table raises a registration error, and registering
a message spec whose id is already present in the message-spec table
raises a registration error; both are returned synchronously by the
registration call itself. -/
theorem duplicate_registration_errors (w : Workflow) (rid : ResId)
    (d : Option Nat) (avail : List State) (pc : Option (List Checker))
    (hdl : Nat → Obj → Sender → Nat) (spec : MessageSpec)
    (h1 : (aget w.resources rid).isSome = true) (h2 : avail ≠ [])
    (h3 : (aget w.message_specs spec.id).isSome = true) :
    (register_resource w rid d (some avail) pc hdl).1
        = some (WfError.valueError "Resource with that name already registered")
  ∧ (register_message w spec).1
        = some (WfError.valueError "Message spec already registered") := by
  constructor
  · have hne : avail.isEmpty = false := by
      cases avail with
      | nil => exact absurd rfl h2
      | cons a t => rfl
    simp [register_resource, hne, h1]
  · simp [register_message, h3]

/-- Witness for C9 on `wc9both`, where resource 4 and spec 6 are taken. -/
theorem duplicate_registration_errors_witness :
    (register_resource wc9both 4 none (some [0]) none accR).1
        = some (WfError.valueError "Resource with that name already registered")
  ∧ (register_message wc9both { id := 6 }).1
        = some (WfError.valueError "Message spec already registered") :=
  duplicate_registration_errors wc9both 4 none [0] none accR { id := 6 }
    (by decide) (by decide) (by decide)

/-! ### Claim C10 -/

/-- Claim C10: registration errors are atomic — whenever
`register_resource` (empty state list or duplicate id),
`register_message` (duplicate spec id) or `register_action` (both state
arguments omitted) fails, every container of the definition is left
exactly as it was before the failing call. -/
theorem registration_failure_atomic (w : Workflow) :
    (∀ rid d avail pc hdl e,
        (register_resource w rid d avail pc hdl).1 = some e →
        (register_resource w rid d avail pc hdl).2 = w)
  ∧ (∀ spec e, (register_message w spec).1 = some e →
        (register_message w spec).2 = w)
  ∧ (∀ mid sf st aname a e,
        (register_action w mid sf st aname a).1 = some e →
        (register_action w mid sf st aname a).2 = w) := by
  refine ⟨?_, ?_, ?_⟩
  · intro rid d avail pc hdl e h
    by_cases hc1 : ((avail.getD w.valid_states_set).isEmpty : Bool) = true
    · simp [register_resource, hc1]
    · by_cases hc2 : ((aget w.resources rid).isSome : Bool) = true
      · simp [register_resource, hc1, hc2]
      · exact absurd h (by simp [register_resource, hc1, hc2])
  · intro spec e h
    by_cases hc : ((aget w.message_specs spec.id).isSome : Bool) = true
    · simp [register_message, hc]
    · exact absurd h (by simp [register_message, hc])
  · intro mid sf st aname a e h
    cases sf with
    | none =>
        cases st with
        | none => rfl
        | some lt => exact absurd h (by simp [register_action])
    | some lf =>
        cases st with
        | none => exact absurd h (by simp [register_action])
        | some lt => exact absurd h (by simp [register_action])

/-- Witness for C10 at the three failure modes: a duplicate resource id
on `wc9`, a duplicate message-spec id on `wc9m`, and a `register_action`
call with both state arguments omitted on `w0`. -/
theorem registration_failure_atomic_witness :
    (register_resource wc9 4 none (some [0]) none accR).2 = wc9
  ∧ (register_message wc9m { id := 6 }).2 = wc9m
  ∧ (register_action w0 (some 5) none none 5 11).2 = w0 :=
  ⟨(registration_failure_atomic wc9).1 4 none (some [0]) none accR
      (WfError.valueError "Resource with that name already registered") rfl,
   (registration_failure_atomic wc9m).2.1 { id := 6 }
      (WfError.valueError "Message spec already registered") rfl,
   (registration_failure_atomic w0).2.2 (some 5) none none 5 11
      (WfError.valueError "Must specify at least one of states_from or states_to.")
      rfl⟩

/-! ### Claim C4 -/

/-- Claim C4: for every handler registered via `register_handler` at
(state, messageId) with checker list `pcs`, `get_handler` at that key
returns that very handler together with a predicate that evaluates true
on (object, sender) iff at least one checker in `pcs` evaluates true
there (OR composition). -/
theorem get_handler_after_register (w : Workflow) (mid : MsgId)
    (states : List State) (pcs : List Checker) (hname : MsgId) (h : Handler)
    (s : State) (hs : s ∈ states) :
    ∃ pred,
      get_handler (register_handler w (some mid) (some states) (some pcs) hname h)
          s mid = Except.ok (pred, h)
        ∧ ∀ o snd, (pred o snd = true ↔ ∃ c ∈ pcs, c.2 o snd = true) := by
  obtain ⟨tbl, htbl, hmid⟩ := register_handler_foldl_get pcs mid h states w s hs
  refine ⟨join_checkers pcs, ?_, ?_⟩
  · have hrw : register_handler w (some mid) (some states) (some pcs) hname h
        = states.foldl (register_handler_step pcs mid h) w := rfl
    rw [hrw]
    simp [get_handler, htbl, hmid]
  · intro o snd
    simp [join_checkers, List.any_eq_true]

/-- Witness for C4 on `wc4`: the handler 9 registered at (0, 5) with
checkers object-equals-sender and deny-all is returned with the
OR-composed predicate. -/
theorem get_handler_after_register_witness :
    ∃ pred,
      get_handler wc4 0 5 = Except.ok (pred, 9)
        ∧ ∀ o snd,
            (pred o snd = true ↔
              ∃ c ∈ [checkerEq, checkerFalse], c.2 o snd = true) :=
  get_handler_after_register w0 5 [0] [checkerEq, checkerFalse] 7 9 0
    (by simp)

/-! ### Claim C6 -/

/-- Claim C6 fails on the code: `register_handler` with `states_from`
omitted defaults to the class attribute `valid_states`, not the computed
valid-state set.  On `wc6` (declared states `[0]`, extra valid state 1,
then a default-states registration of handler 42 for message 7), state 1
is currently valid yet `get_handler` raises `IllegalState` there instead
of finding the handler. -/
theorem register_handler_default_counterexample :
    is_valid_state wc6 1 = true
  ∧ get_handler wc6 1 7 = Except.error (WfError.illegalState 1) :=
  ⟨by decide, rfl⟩

/-- Claim C6 as amended: when `register_handler` is called with
`states_from` omitted, the handler is registered at (state, messageId)
for every state in the declared `valid_states` list (which excludes extra
valid states and inherited states), so `get_handler` succeeds for that
message id at every declared valid state. -/
theorem register_handler_default_states (w : Workflow) (mid : MsgId)
    (pc : Option (List Checker)) (hname : MsgId) (h : Handler) (s : State)
    (hs : s ∈ w.valid_states) :
    ∃ pred,
      get_handler (register_handler w (some mid) none pc hname h) s mid
        = Except.ok (pred, h) := by
  obtain ⟨tbl, htbl, hmid⟩ :=
    register_handler_foldl_get (pc.getD [allow_to_all]) mid h w.valid_states w s hs
  refine ⟨join_checkers (pc.getD [allow_to_all]), ?_⟩
  have hrw : register_handler w (some mid) none pc hname h
      = w.valid_states.foldl
          (register_handler_step (pc.getD [allow_to_all]) mid h) w := rfl
  rw [hrw]
  simp [get_handler, htbl, hmid]

/-- Witness for the amended C6 on `wc6`: the default-states registration
did reach the declared valid state 0. -/
theorem register_handler_default_states_witness :
    ∃ pred, get_handler wc6 0 7 = Except.ok (pred, 42) :=
  register_handler_default_states wc6base 7 none 3 42 0 (by decide)

/-! ### Claim C2 -/

/-- Claim C2 fails on the code: state 5 is not a valid state of `w0`, yet
`get_action` returns `none`, `get_possible_actions` returns the empty
list and `get_checkers_by_state` returns the empty set — none of the
three consults the valid-state set or raises `IllegalState` (their result
types have no error case). -/
theorem query_illegal_state_counterexample :
    is_valid_state w0 5 = false
  ∧ get_action w0 5 5 7 = none
  ∧ get_possible_actions w0 5 7 = []
  ∧ get_checkers_by_state w0 5 = [] :=
  ⟨by decide, by decide, by decide, rfl⟩

/-- Claim C2 as amended: for a state outside the valid-state set that has
no entry in the handler and resource tables, the five table-consulting
Query API calls (`is_valid_message`, `get_handler`,
`get_available_messages`, `get_available_resources`, `get_resource`)
raise `IllegalState`; `get_action`, `get_possible_actions` and
`get_checkers_by_state` never raise, returning null, the empty list and
the empty set respectively when nothing is registered for the state. -/
theorem query_illegal_state_amended (w : Workflow) (s t : State) (m : MsgId)
    (rid : ResId)
    (hinv : is_valid_state w s = false)
    (hh : aget w.handlers s = none)
    (hr : aget w.resources_by_state s = none) :
    is_valid_message w s m = Except.error (WfError.illegalState s)
  ∧ get_handler w s m = Except.error (WfError.illegalState s)
  ∧ get_available_messages w s = Except.error (WfError.illegalState s)
  ∧ get_available_resources w s = Except.error (WfError.illegalState s)
  ∧ get_resource w s rid = Except.error (WfError.illegalState s)
  ∧ (aget w.actions (s, t, m) = none →
      aget w.actions_any_startpoint (t, m) = none →
      aget w.actions_any_destination (s, m) = none →
        get_action w s t m = none)
  ∧ ((aget w.actions_for_possible (some s, m)).getD [] = [] →
      (aget w.actions_for_possible (none, m)).getD [] = [] →
        get_possible_actions w s m = [])
  ∧ (aget w.message_checkers_by_state s = none →
      aget w.resource_checkers_by_state s = none →
        get_checkers_by_state w s = []) := by
  refine ⟨?_, ?_, ?_, ?_, ?_, ?_, ?_, ?_⟩
  · simp [is_valid_message, hh, hinv]
  · simp [get_handler, hh]
  · simp [get_available_messages, hh, hinv]
  · simp [get_available_resources, hr, hinv]
  · simp [get_resource, hr, hinv]
  · intro h1 h2 h3
    simp [get_action, h1, h2, h3]
  · intro h1 h2
    simp [get_possible_actions, h1, h2]
  · intro h1 h2
    simp [get_checkers_by_state, get_message_checkers_by_state,
      get_resource_checkers_by_state, h1, h2, cunion]

/-- Witness for the amended C2 on `w0` at the invalid state 5. -/
theorem query_illegal_state_amended_witness :
    is_valid_message w0 5 7 = Except.error (WfError.illegalState 5)
  ∧ get_handler w0 5 7 = Except.error (WfError.illegalState 5)
  ∧ get_available_messages w0 5 = Except.error (WfError.illegalState 5)
  ∧ get_available_resources w0 5 = Except.error (WfError.illegalState 5)
  ∧ get_resource w0 5 3 = Except.error (WfError.illegalState 5)
  ∧ get_action w0 5 5 7 = none
  ∧ get_possible_actions w0 5 7 = []
  ∧ get_checkers_by_state w0 5 = [] := by
  obtain ⟨h1, h2, h3, h4, h5, h6, h7, h8⟩ :=
    query_illegal_state_amended w0 5 5 7 3 (by decide) rfl rfl
  exact ⟨h1, h2, h3, h4, h5, h6 rfl rfl rfl, h7 rfl rfl, h8 rfl rfl⟩

/-! ### Claim C1 -/

/-- The derived view of the `_handlers` container over an empty parent
container, as `init_inherited_containers` builds it. -/
def iw0 : InheritWorld := init_inherited_container "_handlers" []

/-- Claim C1 fails on the code: `_handlers` is a mapping-typed container
(`_containers` lists it with a dict fabric), yet `merge_container` hands
the derived definition the parent's container itself, so a write
(registration) on the derived definition lands in — and mutates — the
parent's container. -/
theorem merge_container_counterexample :
    ("_handlers", true) ∈ workflow_containers
  ∧ parent_get (child_set iw0 3 4) 3 = some 4
  ∧ (child_set iw0 3 4).parent ≠ iw0.parent := by
  decide

/-- Claim C1 as amended: among the mapping-typed containers of a derived
definition, only `_message_specs` is a layered view — writes go into the
fresh child layer (the parent's container is unchanged), reads fall back
to the parent layer exactly when the key is absent from the child layer,
and a write on the parent's container leaves the child layer unchanged.
Every other mapping-typed container is shared by reference with the
parent, so a write on the derived definition is a write on the parent's
container.  The sole non-mapping container, `_valid_states`, is rebound
after the container loop to a fresh set holding exactly the parent's
valid states plus the instance's extra valid states. -/
theorem merge_container_amended (container_name : String)
    (p l : List (Nat × Nat)) (k v : Nat) (pv e : List State) :
    (merge_container container_name true
        = if container_name = "_message_specs" then ChildContainer.layered []
          else ChildContainer.sharedParent)
  ∧ (child_set { parent := p, child := ChildContainer.layered l } k v
        = { parent := p, child := ChildContainer.layered (aset l k v) })
  ∧ (aget l k = none →
      child_get { parent := p, child := ChildContainer.layered l } k = aget p k)
  ∧ (∀ v', aget l k = some v' →
      child_get { parent := p, child := ChildContainer.layered l } k = some v')
  ∧ (parent_set { parent := p, child := ChildContainer.layered l } k v
        = { parent := aset p k v, child := ChildContainer.layered l })
  ∧ (child_set { parent := p, child := ChildContainer.sharedParent } k v
        = { parent := aset p k v, child := ChildContainer.sharedParent })
  ∧ (∀ x, x ∈ init_inherited_valid_states pv e ↔ (x ∈ pv ∨ x ∈ e)) := by
  refine ⟨rfl, rfl, ?_, ?_, rfl, rfl, ?_⟩
  · intro h
    simp [child_get, h]
  · intro v' h
    simp [child_get, h]
  · intro x
    simp [init_inherited_valid_states, mem_nunion]

/-- Witness for the amended C1: `_resources` is shared with the parent;
for `_message_specs` the layered view writes to the child layer only and
reads fall back to the parent layer on a miss; the rebound valid-state
set of a derived definition contains an extra valid state absent from
the parent's set. -/
theorem merge_container_amended_witness :
    merge_container "_resources" true = ChildContainer.sharedParent
  ∧ merge_container "_message_specs" true = ChildContainer.layered []
  ∧ child_get { parent := [(3, 9)], child := ChildContainer.layered [] } 3
      = some 9
  ∧ child_get { parent := [(3, 9)], child := ChildContainer.layered [(3, 7)] } 3
      = some 7
  ∧ child_set { parent := [(3, 9)], child := ChildContainer.layered [] } 3 7
      = { parent := [(3, 9)], child := ChildContainer.layered [(3, 7)] }
  ∧ 1 ∈ init_inherited_valid_states [0] [1] :=
  ⟨((merge_container_amended "_resources" [] [] 0 0 [] []).1).trans (by decide),
   ((merge_container_amended "_message_specs" [] [] 0 0 [] []).1).trans (by decide),
   ((merge_container_amended "_resources" [(3, 9)] [] 3 7 [] []).2.2.1 rfl).trans
      (by decide),
   (merge_container_amended "_resources" [(3, 9)] [(3, 7)] 3 7 [] []).2.2.2.1 7 rfl,
   (merge_container_amended "_resources" [(3, 9)] [] 3 7 [] []).2.1,
   ((merge_container_amended "_resources" [] [] 0 0 [0] [1]).2.2.2.2.2.2 1).mpr
      (Or.inr (by decide))⟩

end Yawf
